import Mathlib

/-!
Shallow embedding of `src/native/sim_unicorn.hpp` (the native state-plugin
header of the angr unicorn accelerator): the taint data model, entity
equality and hashing, instruction/block taint entries, and the parts of
`State` the header defines inline.  Machine integers are modelled as `Nat`
with explicit reductions modulo `2 ^ 32` / `2 ^ 64` where C++ conversion
rules matter.  C++ containers are modelled as lists: `std::vector` and
`std::map` keep their element order, `std::unordered_set` is a list whose
`operator==` is content equality.
-/

/-- `taint_t` from sim_unicorn.hpp: per-byte taint label. -/
inductive taint_t where
  | TAINT_NONE
  | TAINT_DIRTY
  | TAINT_SYMBOLIC
deriving DecidableEq

/-- `taint_entity_enum_t` from sim_unicorn.hpp. -/
inductive taint_entity_enum_t where
  | TAINT_ENTITY_REG
  | TAINT_ENTITY_TMP
  | TAINT_ENTITY_MEM
  | TAINT_ENTITY_NONE
deriving DecidableEq

/-- The numeric value of a `taint_entity_enum_t` (it is declared `: uint8_t`
with values 0,1,2,3). -/
def taint_entity_enum_t.val : taint_entity_enum_t → Nat
  | .TAINT_ENTITY_REG => 0
  | .TAINT_ENTITY_TMP => 1
  | .TAINT_ENTITY_MEM => 2
  | .TAINT_ENTITY_NONE => 3

/-- `stop_t` from sim_unicorn.hpp. -/
inductive stop_t where
  | STOP_NORMAL
  | STOP_STOPPOINT
  | STOP_ERROR
  | STOP_SYSCALL
  | STOP_EXECNONE
  | STOP_ZEROPAGE
  | STOP_NOSTART
  | STOP_SEGFAULT
  | STOP_ZERO_DIV
  | STOP_NODECODE
  | STOP_HLT
  | STOP_VEX_LIFT_FAILED
  | STOP_SYMBOLIC_CONDITION
  | STOP_SYMBOLIC_PC
  | STOP_SYMBOLIC_READ_ADDR
  | STOP_SYMBOLIC_READ_SYMBOLIC_TRACKING_DISABLED
  | STOP_SYMBOLIC_WRITE_ADDR
  | STOP_SYMBOLIC_BLOCK_EXIT_STMT
  | STOP_MULTIPLE_MEMORY_READS
  | STOP_UNSUPPORTED_STMT_PUTI
  | STOP_UNSUPPORTED_STMT_STOREG
  | STOP_UNSUPPORTED_STMT_LOADG
  | STOP_UNSUPPORTED_STMT_CAS
  | STOP_UNSUPPORTED_STMT_LLSC
  | STOP_UNSUPPORTED_STMT_DIRTY
  | STOP_UNSUPPORTED_STMT_UNKNOWN
  | STOP_UNSUPPORTED_EXPR_GETI
  | STOP_UNSUPPORTED_EXPR_UNKNOWN
  | STOP_UNKNOWN_MEMORY_WRITE
  | STOP_UNKNOWN_MEMORY_READ
deriving DecidableEq

/-- `taint_entity_t` from sim_unicorn.hpp.  The C++ struct is not a union:
all fields are always present, and which of `reg_offset` / `tmp_id` /
`mem_ref_entity_list` is meaningful depends on `entity_type`.  The struct is
recursive through `mem_ref_entity_list`, hence an inductive with one
constructor. -/
inductive taint_entity_t where
  | mk (entity_type : taint_entity_enum_t) (reg_offset : Nat) (tmp_id : Nat)
      (mem_ref_entity_list : List taint_entity_t) (instr_addr : Nat)

def taint_entity_t.entity_type : taint_entity_t → taint_entity_enum_t
  | .mk t _ _ _ _ => t

def taint_entity_t.reg_offset : taint_entity_t → Nat
  | .mk _ r _ _ _ => r

def taint_entity_t.tmp_id : taint_entity_t → Nat
  | .mk _ _ m _ _ => m

def taint_entity_t.mem_ref_entity_list : taint_entity_t → List taint_entity_t
  | .mk _ _ _ l _ => l

def taint_entity_t.instr_addr : taint_entity_t → Nat
  | .mk _ _ _ _ i => i

/-- The same entity with a replaced `instr_addr` field. -/
def taint_entity_t.with_instr_addr : taint_entity_t → Nat → taint_entity_t
  | .mk t r m l _, i => .mk t r m l i

mutual

/-- `taint_entity_t::operator==` (sim_unicorn.hpp lines 59-70): entity types
must agree; a `TAINT_ENTITY_REG` compares `reg_offset`, a `TAINT_ENTITY_TMP`
compares `tmp_id`, and every other entity type (both `TAINT_ENTITY_MEM` and
`TAINT_ENTITY_NONE`) falls through to comparing `mem_ref_entity_list`.
`instr_addr` is never read. -/
def teq : taint_entity_t → taint_entity_t → Bool
  | .mk ta ra ma la _, .mk tb rb mb lb _ =>
    if ta ≠ tb then false
    else if ta = .TAINT_ENTITY_REG then ra == rb
    else if ta = .TAINT_ENTITY_TMP then ma == mb
    else teqList la lb

/-- `std::vector<taint_entity_t>::operator==`: same length and element-wise
`taint_entity_t::operator==`. -/
def teqList : List taint_entity_t → List taint_entity_t → Bool
  | [], [] => true
  | a :: as, b :: bs => teq a b && teqList as bs
  | _, _ => false

end

/-- `std::hash<uint64_t>` for a value below `2 ^ 64`: the identity (as in
libstdc++/libc++); the result is a 64-bit `std::size_t`. -/
def hashU64 (n : Nat) : Nat := n % 2 ^ 64

mutual

/-- `taint_entity_t::operator()` (sim_unicorn.hpp lines 74-93), the hash
used by `std::hash<taint_entity_t>`: REG xors the hashed entity type with
the hashed `reg_offset`, TMP with the hashed `tmp_id`, MEM xors the hashed
entity type with every sub-entity's hash, and NONE hashes the entity type
alone.  `instr_addr` is never read. -/
def thash : taint_entity_t → Nat
  | .mk t r m l _ =>
    if t = .TAINT_ENTITY_REG then Nat.xor (hashU64 t.val) (hashU64 r)
    else if t = .TAINT_ENTITY_TMP then Nat.xor (hashU64 t.val) (hashU64 m)
    else if t = .TAINT_ENTITY_MEM then thashList (hashU64 t.val) l
    else hashU64 t.val

/-- The MEM loop of `taint_entity_t::operator()`: xor-accumulate the hash of
every sub-entity. -/
def thashList : Nat → List taint_entity_t → Nat
  | acc, [] => acc
  | acc, e :: es => thashList (Nat.xor acc (thash e)) es

end

/-- Element-wise equality of two lists under an element comparison: the shape
of `std::vector::operator==` / `std::map::operator==` (equal sizes, equal
elements in order). -/
def listEqBy (f : α → α → Bool) : List α → List α → Bool
  | [], [] => true
  | a :: as, b :: bs => f a b && listEqBy f as bs
  | _, _ => false

/-- `std::unordered_set<taint_entity_t>::operator==` (keys unique): equal
sizes and each side's elements all occur in the other, where element
equality is `taint_entity_t::operator==`. -/
def usetEq (a b : List taint_entity_t) : Bool :=
  a.length == b.length && a.all (fun x => b.any (teq x)) && b.all (fun x => a.any (teq x))

/-- `memory_value_t` from sim_unicorn.hpp; `value` is the byte array of at
most `MAX_MEM_ACCESS_SIZE` entries. -/
structure memory_value_t where
  address : Nat
  value : List Nat
  size : Nat

/-- `memory_value_t::operator==`: equal address and size, and `memcmp` of
the first `size` value bytes. -/
def memory_value_eq (a b : memory_value_t) : Bool :=
  if a.address ≠ b.address ∨ a.size ≠ b.size then false
  else a.value.take a.size == b.value.take b.size

/-- `instr_details_t` from sim_unicorn.hpp. -/
structure instr_details_t where
  instr_addr : Nat
  has_memory_dep : Bool
  memory_value : memory_value_t

/-- `instr_details_t::operator==` (compares all three fields). -/
def instr_details_eq (a b : instr_details_t) : Bool :=
  a.instr_addr == b.instr_addr && a.has_memory_dep == b.has_memory_dep &&
    memory_value_eq a.memory_value b.memory_value

/-- `instr_details_t::operator<` (sim_unicorn.hpp lines 139-141): the strict
order used by `std::set<instr_details_t>` compares only `instr_addr`. -/
def instr_details_lt (a b : instr_details_t) : Bool :=
  a.instr_addr < b.instr_addr

/-- `instruction_taint_entry_t` from sim_unicorn.hpp.  `taint_sink_src_map`
is a `taint_vector_t`: a vector of (sink, unordered set of sources) pairs. -/
structure instruction_taint_entry_t where
  taint_sink_src_map : List (taint_entity_t × List taint_entity_t)
  dependencies_to_save : List taint_entity_t
  ite_cond_entity_list : List taint_entity_t
  modified_regs : List (Nat × Bool)
  has_memory_read : Bool
  has_memory_write : Bool

/-- `std::pair<taint_entity_t, std::unordered_set<taint_entity_t>>::operator==`. -/
def taint_pair_eq (p q : taint_entity_t × List taint_entity_t) : Bool :=
  teq p.1 q.1 && usetEq p.2 q.2

/-- `taint_vector_t::operator==` (std::vector of pairs). -/
def taintVecEq : List (taint_entity_t × List taint_entity_t) →
    List (taint_entity_t × List taint_entity_t) → Bool :=
  listEqBy taint_pair_eq

/-- `instruction_taint_entry_t::operator==` (sim_unicorn.hpp lines 223-228):
compares `taint_sink_src_map`, `dependencies_to_save`, `has_memory_read` and
`has_memory_write`; `ite_cond_entity_list` and `modified_regs` are not
compared. -/
def instr_entry_eq (a b : instruction_taint_entry_t) : Bool :=
  taintVecEq a.taint_sink_src_map b.taint_sink_src_map &&
  usetEq a.dependencies_to_save b.dependencies_to_save &&
  (a.has_memory_read == b.has_memory_read) &&
  (a.has_memory_write == b.has_memory_write)

/-- `block_taint_entry_t` from sim_unicorn.hpp.
`block_instrs_taint_data_map` is a `std::map<address_t,
instruction_taint_entry_t>`: an ordered association list. -/
structure block_taint_entry_t where
  block_instrs_taint_data_map : List (Nat × instruction_taint_entry_t)
  exit_stmt_guard_expr_deps : List taint_entity_t
  exit_stmt_instr_addr : Nat
  has_unsupported_stmt_or_expr_type : Bool
  unsupported_stmt_stop_reason : stop_t

/-- `std::map<address_t, instruction_taint_entry_t>::operator==`: equal
sizes and pairwise (key, value) equality in order. -/
def instrMapEq : List (Nat × instruction_taint_entry_t) →
    List (Nat × instruction_taint_entry_t) → Bool :=
  listEqBy (fun p q => p.1 == q.1 && instr_entry_eq p.2 q.2)

/-- `block_taint_entry_t::operator==` (sim_unicorn.hpp lines 248-251):
compares only `block_instrs_taint_data_map` and `exit_stmt_guard_expr_deps`;
`exit_stmt_instr_addr`, `has_unsupported_stmt_or_expr_type` and
`unsupported_stmt_stop_reason` are not compared. -/
def block_entry_eq (a b : block_taint_entry_t) : Bool :=
  instrMapEq a.block_instrs_taint_data_map b.block_instrs_taint_data_map &&
  usetEq a.exit_stmt_guard_expr_deps b.exit_stmt_guard_expr_deps

/-- `PAGE_SIZE` from sim_unicorn.hpp (`#define PAGE_SIZE 0x1000`). -/
def PAGE_SIZE : Nat := 0x1000

/-- `PAGE_SHIFT` from sim_unicorn.hpp (`#define PAGE_SHIFT 12`). -/
def PAGE_SHIFT : Nat := 12

/-- `PageBitmap` from sim_unicorn.hpp: `taint_t PageBitmap[PAGE_SIZE]`, an
array of exactly `PAGE_SIZE` taint bytes. -/
def PageBitmap := { l : List taint_t // l.length = PAGE_SIZE }

/-- Modelled from the spec: the page a byte address belongs to.  The shadow
memory page table (`State::page_lookup` / `State::page_activate`) lives in
sim_unicorn.cpp, which is not part of the staged sources; the spec says
"Pages are addressed by `addr >> 12`", with the shift amount being the
header's `PAGE_SHIFT`. -/
def page_of_addr (addr : Nat) : Nat := addr >>> PAGE_SHIFT

/-- `MAX_BB_SIZE` from sim_unicorn.hpp: maximum size of a qemu/unicorn basic
block. -/
def MAX_BB_SIZE : Nat := 800

/-- Modelled from the spec: whether the analyzer refuses a basic block for
its guest-code size.  `State::step`, which enforces the limit and re-enters
at the next instruction, lives in sim_unicorn.cpp, which is not part of the
staged sources; the spec says "the analyzer refuses IR blocks longer than
800 bytes of guest code". -/
def block_size_refused (block_size : Nat) : Bool :=
  MAX_BB_SIZE < block_size

/-- `uc_arch` of the unicorn engine API (the architectures the header's
switch statements dispatch on, plus the remaining unicorn 1.x ones). -/
inductive uc_arch where
  | UC_ARCH_ARM
  | UC_ARCH_ARM64
  | UC_ARCH_MIPS
  | UC_ARCH_X86
  | UC_ARCH_PPC
  | UC_ARCH_SPARC
  | UC_ARCH_M68K
deriving DecidableEq

/-- `uc_mode` of the unicorn engine API (the modes relevant to the header's
`mode == UC_MODE_64` tests, plus other common ones). -/
inductive uc_mode where
  | UC_MODE_16
  | UC_MODE_32
  | UC_MODE_64
  | UC_MODE_ARM
  | UC_MODE_THUMB
deriving DecidableEq

/-- The VEX guest program-counter register offsets from
`libvex_guest_offsets.h` (an external header): opaque positive constants,
passed in as parameters. -/
structure vex_pc_offsets where
  OFFSET_amd64_RIP : Nat
  OFFSET_x86_EIP : Nat
  OFFSET_arm_R15T : Nat
  OFFSET_arm64_PC : Nat
  OFFSET_mips64_PC : Nat
  OFFSET_mips32_PC : Nat

/-- The unicorn program-counter register identifiers from the unicorn API
headers (external): opaque constants, passed in as parameters. -/
structure uc_pc_regs where
  UC_X86_REG_RIP : Nat
  UC_X86_REG_EIP : Nat
  UC_ARM_REG_PC : Nat
  UC_ARM64_REG_PC : Nat
  UC_MIPS_REG_PC : Nat

/-- `(unsigned int) -1`, the value the default branches of
`State::arch_pc_reg_vex_offset` / `State::arch_pc_reg` return: the
"no such register" sentinel. -/
def NO_SUCH_REG : Nat := 2 ^ 32 - 1

/-- `mem_access_t` from sim_unicorn.hpp (the write journal entry; the
comment in the header says it should be called `mem_write_t`).  The C++
`clean` field is declared `int` with comment "save current page bitmap";
per the spec it is "a snapshot of the prior taint of each overwritten byte
so rollback can restore it", modelled as one `taint_t` per written byte. -/
structure mem_access_t where
  address : Nat
  value : List Nat
  size : Nat
  clean : List taint_t
  is_symbolic : Bool

/-- The fields of `class State` (sim_unicorn.hpp) that the claims touch.
The shadow memory (`active_pages` of `PageBitmap`s) is flattened into one
byte-addressed taint function; register/temp sets are lists. -/
structure State where
  shadow : Nat → taint_t
  mem_writes : List mem_access_t
  symbolic_registers : List Nat
  blacklisted_registers : List Nat
  artificial_vex_registers : List Nat
  block_symbolic_registers : List Nat
  block_concrete_registers : List Nat
  block_symbolic_temps : List Nat
  arch : uc_arch
  mode : uc_mode

/-- `State::is_valid_dependency_register` (sim_unicorn.hpp lines 565-567):
`artificial_vex_registers.count(reg_offset) == 0 &&
blacklisted_registers.count(reg_offset) == 0`. -/
def is_valid_dependency_register (s : State) (reg_offset : Nat) : Bool :=
  (s.artificial_vex_registers.count reg_offset == 0) &&
  (s.blacklisted_registers.count reg_offset == 0)

/-- `State::is_blacklisted_register` (sim_unicorn.hpp lines 569-571). -/
def is_blacklisted_register (s : State) (reg_offset : Nat) : Bool :=
  0 < s.blacklisted_registers.count reg_offset

/-- `State::arch_pc_reg_vex_offset` (sim_unicorn.hpp lines 573-586), with
the external offset constants passed in.  The function returns
`unsigned int`, so every result is reduced modulo `2 ^ 32` and the default
branch's `-1` is `NO_SUCH_REG`. -/
def arch_pc_reg_vex_offset (c : vex_pc_offsets) (s : State) : Nat :=
  (match s.arch with
    | .UC_ARCH_X86 =>
      if s.mode = .UC_MODE_64 then c.OFFSET_amd64_RIP else c.OFFSET_x86_EIP
    | .UC_ARCH_ARM => c.OFFSET_arm_R15T
    | .UC_ARCH_ARM64 => c.OFFSET_arm64_PC
    | .UC_ARCH_MIPS =>
      if s.mode = .UC_MODE_64 then c.OFFSET_mips64_PC else c.OFFSET_mips32_PC
    | _ => NO_SUCH_REG) % 2 ^ 32

/-- `State::arch_pc_reg` (sim_unicorn.hpp lines 588-601), with the external
unicorn register identifiers passed in. -/
def arch_pc_reg (c : uc_pc_regs) (s : State) : Nat :=
  (match s.arch with
    | .UC_ARCH_X86 =>
      if s.mode = .UC_MODE_64 then c.UC_X86_REG_RIP else c.UC_X86_REG_EIP
    | .UC_ARCH_ARM => c.UC_ARM_REG_PC
    | .UC_ARCH_ARM64 => c.UC_ARM64_REG_PC
    | .UC_ARCH_MIPS => c.UC_MIPS_REG_PC
    | _ => NO_SUCH_REG) % 2 ^ 32

/-- The taint a journalled write stamps on the overwritten shadow bytes:
SYMBOLIC for a symbolic write, DIRTY (pending-commit concrete) otherwise. -/
def taint_of_write (is_symbolic : Bool) : taint_t :=
  if is_symbolic then .TAINT_SYMBOLIC else .TAINT_DIRTY

/-- Modelled from the spec: `State::log_write` (declared at sim_unicorn.hpp
line 430, implemented in sim_unicorn.cpp, which is not part of the staged
sources).  Per the spec it "records the write and marks the affected shadow
bytes DIRTY (if concrete; else SYMBOLIC), after saving the prior taint in
the entry itself"; the journal `mem_writes` is append-only. -/
def log_write (addr size : Nat) (is_symbolic : Bool) (s : State) : State :=
  { s with
    mem_writes := s.mem_writes ++
      [{ address := addr, value := [], size := size,
         clean := (List.range size).map (fun k => s.shadow (addr + k)),
         is_symbolic := is_symbolic }],
    shadow := fun x =>
      if addr ≤ x ∧ x < addr + size then taint_of_write is_symbolic
      else s.shadow x }

/-- Undo one journal entry: restore the prior taint of each covered byte
from the entry's `clean` snapshot. -/
def restore_entry (e : mem_access_t) (m : Nat → taint_t) : Nat → taint_t :=
  fun x =>
    if e.address ≤ x ∧ x < e.address + e.size then
      e.clean.getD (x - e.address) .TAINT_NONE
    else m x

/-- Undo a list of journal entries in the order given (callers pass the
journal reversed: most recent write first). -/
def restore_writes : List mem_access_t → (Nat → taint_t) → (Nat → taint_t)
  | [], m => m
  | e :: es, m => restore_writes es (restore_entry e m)

/-- Modelled from the spec: `State::mark_register_symbolic` at block level
(declared at sim_unicorn.hpp line 505, implemented in sim_unicorn.cpp).
Per the spec it adds to `block_symbolic_registers` and removes from
`block_concrete_registers`; the block-level sets record the in-flight
block's taint changes so they can be discarded on rollback. -/
def mark_register_symbolic (r : Nat) (s : State) : State :=
  { s with
    block_symbolic_registers :=
      if s.block_symbolic_registers.contains r then s.block_symbolic_registers
      else r :: s.block_symbolic_registers,
    block_concrete_registers := s.block_concrete_registers.filter (fun x => x ≠ r) }

/-- Modelled from the spec: `State::mark_register_concrete` at block level
(declared at sim_unicorn.hpp line 509, implemented in sim_unicorn.cpp);
symmetric to `mark_register_symbolic`. -/
def mark_register_concrete (r : Nat) (s : State) : State :=
  { s with
    block_concrete_registers :=
      if s.block_concrete_registers.contains r then s.block_concrete_registers
      else r :: s.block_concrete_registers,
    block_symbolic_registers := s.block_symbolic_registers.filter (fun x => x ≠ r) }

/-- Modelled from the spec: `State::mark_temp_symbolic` (declared at
sim_unicorn.hpp line 507, implemented in sim_unicorn.cpp); temps are
block-local, so the set is empty at block entry. -/
def mark_temp_symbolic (t : Nat) (s : State) : State :=
  { s with
    block_symbolic_temps :=
      if s.block_symbolic_temps.contains t then s.block_symbolic_temps
      else t :: s.block_symbolic_temps }

/-- Modelled from the spec: `State::is_symbolic_register` (declared at
sim_unicorn.hpp line 511, implemented in sim_unicorn.cpp): the block-level
sets overlay the persistent `symbolic_registers` set during a block. -/
def is_symbolic_register (s : State) (r : Nat) : Bool :=
  if s.block_symbolic_registers.contains r then true
  else if s.block_concrete_registers.contains r then false
  else s.symbolic_registers.contains r

/-- Modelled from the spec: `State::is_symbolic_temp` (declared at
sim_unicorn.hpp line 513, implemented in sim_unicorn.cpp). -/
def is_symbolic_temp (s : State) (t : Nat) : Bool :=
  s.block_symbolic_temps.contains t

/-- Modelled from the spec: `State::commit` (declared at sim_unicorn.hpp
line 436, implemented in sim_unicorn.cpp).  Per the spec it "clears DIRTY
back to NONE in shadow memory (it was only a 'pending commit' marker),
propagates SYMBOLIC marks unchanged, and empties the journal"; the
block-level register marks are folded into the persistent set and the
block-local sets reset for the next block. -/
def commit (s : State) : State :=
  { s with
    shadow := fun x => if s.shadow x = .TAINT_DIRTY then .TAINT_NONE else s.shadow x,
    mem_writes := [],
    symbolic_registers :=
      s.block_symbolic_registers ++
        s.symbolic_registers.filter (fun r => ¬ s.block_concrete_registers.contains r),
    block_symbolic_registers := [],
    block_concrete_registers := [],
    block_symbolic_temps := [] }

/-- Modelled from the spec: `State::rollback` (declared at sim_unicorn.hpp
line 441, implemented in sim_unicorn.cpp).  Per the spec it "iterates the
journal in reverse, restoring prior taint byte-by-byte, and clears the
journal"; the in-flight block's register/temp marks are discarded. -/
def rollback (s : State) : State :=
  { s with
    shadow := restore_writes s.mem_writes.reverse s.shadow,
    mem_writes := [],
    block_symbolic_registers := [],
    block_concrete_registers := [],
    block_symbolic_temps := [] }

/-- The taint-relevant events of one engine block: journalled memory writes
and block-level register/temp taint marks. -/
inductive block_op where
  | write (addr size : Nat) (is_symbolic : Bool)
  | reg_symbolic (r : Nat)
  | reg_concrete (r : Nat)
  | temp_symbolic (t : Nat)

def apply_op : block_op → State → State
  | .write a n b, s => log_write a n b s
  | .reg_symbolic r, s => mark_register_symbolic r s
  | .reg_concrete r, s => mark_register_concrete r s
  | .temp_symbolic t, s => mark_temp_symbolic t s

def apply_ops (ops : List block_op) (s : State) : State :=
  ops.foldl (fun s op => apply_op op s) s

/-- A state as it stands at block entry: the journal is drained and the
block-local sets are empty. -/
def at_block_entry (s : State) : Prop :=
  s.mem_writes = [] ∧ s.block_symbolic_registers = [] ∧
  s.block_concrete_registers = [] ∧ s.block_symbolic_temps = []

/-- Counterexample input: a `TAINT_ENTITY_NONE` entity with an empty
sub-entity list. -/
def teq_cex_a : taint_entity_t := .mk .TAINT_ENTITY_NONE 0 0 [] 0

/-- Counterexample input: a `TAINT_ENTITY_NONE` entity, agreeing with
`teq_cex_a` on everything except its (meaningless for NONE) sub-entity
list. -/
def teq_cex_b : taint_entity_t :=
  .mk .TAINT_ENTITY_NONE 0 0 [.mk .TAINT_ENTITY_REG 1 0 [] 0] 0

/-- Induction over `taint_entity_t` with the hypothesis available for every
member of the nested sub-entity list. -/
theorem taint_entity_ind {P : taint_entity_t → Prop}
    (h : ∀ t r m l i, (∀ e ∈ l, P e) → P (.mk t r m l i)) :
    ∀ a, P a
  | .mk t r m l i => h t r m l i (fun e he => taint_entity_ind h e)
termination_by a => sizeOf a
decreasing_by
  have := List.sizeOf_lt_of_mem he
  simp only [taint_entity_t.mk.sizeOf_spec]
  omega

theorem teqList_refl_of (l : List taint_entity_t)
    (h : ∀ e ∈ l, teq e e = true) : teqList l l = true := by
  induction l with
  | nil => simp [teqList]
  | cons a as ih =>
    simp only [teqList, Bool.and_eq_true]
    exact ⟨h a (by simp), ih (fun e he => h e (by simp [he]))⟩

/-- `taint_entity_t::operator==` is reflexive. -/
theorem teq_refl : ∀ a : taint_entity_t, teq a a = true := by
  refine taint_entity_ind ?_
  intro t r m l i ih
  simp only [teq, ne_eq, not_true_eq_false, if_false]
  split
  · simp
  · split
    · simp
    · exact teqList_refl_of l ih

/-- Neither side of `taint_entity_t::operator==` reads the top-level
`instr_addr` field. -/
theorem teq_with_instr_addr (a b : taint_entity_t) (i j : Nat) :
    teq (a.with_instr_addr i) (b.with_instr_addr j) = teq a b := by
  obtain ⟨ta, ra, ma, la, ia⟩ := a
  obtain ⟨tb, rb, mb, lb, ib⟩ := b
  rw [taint_entity_t.with_instr_addr, taint_entity_t.with_instr_addr, teq, teq]

theorem with_instr_addr_self : ∀ a : taint_entity_t,
    a.with_instr_addr a.instr_addr = a
  | .mk _ _ _ _ _ => rfl

theorem thashList_congr (l : List taint_entity_t)
    (ih : ∀ e ∈ l, ∀ b, teq e b = true → thash e = thash b) :
    ∀ l', teqList l l' = true → ∀ acc, thashList acc l = thashList acc l' := by
  induction l with
  | nil =>
    intro l' h acc
    cases l' with
    | nil => rfl
    | cons b bs => simp [teqList] at h
  | cons a as ihl =>
    intro l' h acc
    cases l' with
    | nil => simp [teqList] at h
    | cons b bs =>
      rw [teqList, Bool.and_eq_true] at h
      rw [thashList, thashList, ih a (by simp) b h.1]
      exact ihl (fun e he => ih e (by simp [he])) bs h.2 _

theorem listEqBy_refl {α : Type} (f : α → α → Bool) :
    ∀ l : List α, (∀ x ∈ l, f x x = true) → listEqBy f l l = true := by
  intro l h
  induction l with
  | nil => rfl
  | cons a as ih =>
    rw [listEqBy, Bool.and_eq_true]
    exact ⟨h a (by simp), ih (fun x hx => h x (by simp [hx]))⟩

/-- `usetEq` is reflexive. -/
theorem usetEq_refl (l : List taint_entity_t) : usetEq l l = true := by
  have hmem : ∀ x ∈ l, l.any (teq x) = true :=
    fun x hx => List.any_eq_true.mpr ⟨x, hx, teq_refl x⟩
  simp only [usetEq, Bool.and_eq_true, beq_self_eq_true, true_and, List.all_eq_true]
  exact ⟨fun x hx => hmem x hx, fun x hx => hmem x hx⟩

theorem taint_pair_eq_refl (p : taint_entity_t × List taint_entity_t) :
    taint_pair_eq p p = true := by
  rw [taint_pair_eq, Bool.and_eq_true]
  exact ⟨teq_refl p.1, usetEq_refl p.2⟩

theorem taintVecEq_refl (v : List (taint_entity_t × List taint_entity_t)) :
    taintVecEq v v = true :=
  listEqBy_refl _ v (fun p _ => taint_pair_eq_refl p)

theorem instr_entry_eq_refl (e : instruction_taint_entry_t) :
    instr_entry_eq e e = true := by
  simp [instr_entry_eq, taintVecEq_refl, usetEq_refl]

theorem instrMapEq_refl (m : List (Nat × instruction_taint_entry_t)) :
    instrMapEq m m = true :=
  listEqBy_refl _ m (fun p _ => by simp [instr_entry_eq_refl])

/-- C1 (amended): `taint_entity_t::operator==` compares `entity_type`, then
for `Reg` the `reg_offset`, for `Tmp` the `tmp_id`, and for every other
entity type — `Mem` and also `None`, since the C++ code falls through to the
vector comparison for `None` too — the `mem_ref_entity_list` element-wise;
`instr_addr` is ignored, so two entities differing only in `instr_addr` are
equal. -/
theorem taint_entity_eq_spec :
    ∀ a b : taint_entity_t,
      (teq a b = true ↔
        (a.entity_type = b.entity_type ∧
          (a.entity_type = .TAINT_ENTITY_REG → a.reg_offset = b.reg_offset) ∧
          (a.entity_type = .TAINT_ENTITY_TMP → a.tmp_id = b.tmp_id) ∧
          (a.entity_type ≠ .TAINT_ENTITY_REG → a.entity_type ≠ .TAINT_ENTITY_TMP →
            teqList a.mem_ref_entity_list b.mem_ref_entity_list = true))) ∧
      (∀ i : Nat, teq a (a.with_instr_addr i) = true) ∧
      (∀ i j : Nat, teq (a.with_instr_addr i) (b.with_instr_addr j) = teq a b) := by
  intro a b
  refine ⟨?_, ?_, fun i j => teq_with_instr_addr a b i j⟩
  · obtain ⟨ta, ra, ma, la, ia⟩ := a
    obtain ⟨tb, rb, mb, lb, ib⟩ := b
    rw [teq]
    simp only [taint_entity_t.entity_type, taint_entity_t.reg_offset,
      taint_entity_t.tmp_id, taint_entity_t.mem_ref_entity_list]
    by_cases h : ta = tb
    · subst h
      cases ta <;> simp [beq_iff_eq]
    · rw [if_pos h]
      simp [h]
  · intro i
    nth_rewrite 1 [← with_instr_addr_self a]
    rw [teq_with_instr_addr]
    exact teq_refl a

/-- C1 counterexample: two `TAINT_ENTITY_NONE` entities agreeing on
`entity_type`, `reg_offset` and `tmp_id` (the claim's conditions for the
Reg/Tmp/Mem variants are all vacuous here), yet `operator==` returns false,
because for `None` the code still compares `mem_ref_entity_list`. -/
theorem taint_entity_eq_none_counterexample :
    teq teq_cex_a teq_cex_b = false ∧
    teq_cex_a.entity_type = teq_cex_b.entity_type ∧
    teq_cex_a.entity_type ≠ .TAINT_ENTITY_REG ∧
    teq_cex_a.entity_type ≠ .TAINT_ENTITY_TMP ∧
    teq_cex_a.entity_type ≠ .TAINT_ENTITY_MEM ∧
    teq_cex_a.reg_offset = teq_cex_b.reg_offset ∧
    teq_cex_a.tmp_id = teq_cex_b.tmp_id := by
  refine ⟨?_, rfl, ?_, ?_, ?_, rfl, rfl⟩
  · simp [teq_cex_a, teq_cex_b, teq, teqList]
  · simp [teq_cex_a, taint_entity_t.entity_type]
  · simp [teq_cex_a, taint_entity_t.entity_type]
  · simp [teq_cex_a, taint_entity_t.entity_type]

/-- C3: the hash of `taint_entity_t` is consistent with its equality: equal
entities (by `operator==`) have equal hashes.  Like the equality, the hash
never reads `instr_addr`, and for `Mem` entities it combines only the
sub-entity hashes. -/
theorem taint_entity_hash_consistent :
    ∀ a b : taint_entity_t, teq a b = true → thash a = thash b := by
  refine taint_entity_ind ?_
  intro t r m l i ih b h
  obtain ⟨tb, rb, mb, lb, ib⟩ := b
  rw [teq] at h
  split at h
  · simp at h
  · rename_i hne
    push_neg at hne
    subst hne
    cases t with
    | TAINT_ENTITY_REG =>
      simp only [thash, reduceIte]
      simp at h
      simp [h]
    | TAINT_ENTITY_TMP =>
      simp only [thash, reduceIte]
      simp at h
      simp [h]
    | TAINT_ENTITY_MEM =>
      simp only [thash, reduceIte]
      simp at h
      exact thashList_congr l ih lb h _
    | TAINT_ENTITY_NONE =>
      simp only [thash]
      rfl

/-- C3 witness: two `Reg` entities equal by `operator==` (the `tmp_id` and
`instr_addr` fields differ but are ignored for registers) hash alike. -/
theorem taint_entity_hash_consistent_witness :
    thash (.mk .TAINT_ENTITY_REG 16 0 [] 5) = thash (.mk .TAINT_ENTITY_REG 16 99 [] 7) :=
  taint_entity_hash_consistent _ _ (by simp [teq])

/-- C2: `block_taint_entry_t::operator==` reads only
`block_instrs_taint_data_map` and `exit_stmt_guard_expr_deps`: two entries
agreeing on those two fields compare equal whatever their
`exit_stmt_instr_addr`, `has_unsupported_stmt_or_expr_type` and
`unsupported_stmt_stop_reason`. -/
theorem block_taint_entry_eq_ignores_extra_fields (a b : block_taint_entry_t)
    (h1 : a.block_instrs_taint_data_map = b.block_instrs_taint_data_map)
    (h2 : a.exit_stmt_guard_expr_deps = b.exit_stmt_guard_expr_deps) :
    block_entry_eq a b = true := by
  rw [block_entry_eq, h1, h2]
  simp [instrMapEq_refl, usetEq_refl]

/-- C2 witness: two concrete block entries agreeing on the instruction map
and exit-guard deps but differing in `exit_stmt_instr_addr`,
`has_unsupported_stmt_or_expr_type` and `unsupported_stmt_stop_reason`
compare equal. -/
theorem block_taint_entry_eq_ignores_extra_fields_witness :
    block_entry_eq
      { block_instrs_taint_data_map :=
          [(4096,
            { taint_sink_src_map :=
                [(.mk .TAINT_ENTITY_TMP 0 7 [] 4096, [.mk .TAINT_ENTITY_REG 16 0 [] 4096])],
              dependencies_to_save := [.mk .TAINT_ENTITY_REG 16 0 [] 4096],
              ite_cond_entity_list := [],
              modified_regs := [],
              has_memory_read := true,
              has_memory_write := false })],
        exit_stmt_guard_expr_deps := [.mk .TAINT_ENTITY_TMP 0 7 [] 4100],
        exit_stmt_instr_addr := 4100,
        has_unsupported_stmt_or_expr_type := false,
        unsupported_stmt_stop_reason := .STOP_NORMAL }
      { block_instrs_taint_data_map :=
          [(4096,
            { taint_sink_src_map :=
                [(.mk .TAINT_ENTITY_TMP 0 7 [] 4096, [.mk .TAINT_ENTITY_REG 16 0 [] 4096])],
              dependencies_to_save := [.mk .TAINT_ENTITY_REG 16 0 [] 4096],
              ite_cond_entity_list := [],
              modified_regs := [],
              has_memory_read := true,
              has_memory_write := false })],
        exit_stmt_guard_expr_deps := [.mk .TAINT_ENTITY_TMP 0 7 [] 4100],
        exit_stmt_instr_addr := 8200,
        has_unsupported_stmt_or_expr_type := true,
        unsupported_stmt_stop_reason := .STOP_UNSUPPORTED_STMT_CAS } = true :=
  block_taint_entry_eq_ignores_extra_fields _ _ rfl rfl

/-- C9: `instruction_taint_entry_t::operator==` reads only
`taint_sink_src_map`, `dependencies_to_save`, `has_memory_read` and
`has_memory_write`: two entries agreeing on those compare equal whatever
their `ite_cond_entity_list` and `modified_regs`. -/
theorem instr_taint_entry_eq_ignores_ite_and_modified
    (a b : instruction_taint_entry_t)
    (h1 : a.taint_sink_src_map = b.taint_sink_src_map)
    (h2 : a.dependencies_to_save = b.dependencies_to_save)
    (h3 : a.has_memory_read = b.has_memory_read)
    (h4 : a.has_memory_write = b.has_memory_write) :
    instr_entry_eq a b = true := by
  rw [instr_entry_eq, h1, h2, h3, h4]
  simp [taintVecEq_refl, usetEq_refl]

/-- C9 witness: two concrete instruction entries differing only in
`ite_cond_entity_list` and `modified_regs` compare equal. -/
theorem instr_taint_entry_eq_ignores_ite_and_modified_witness :
    instr_entry_eq
      { taint_sink_src_map :=
          [(.mk .TAINT_ENTITY_TMP 0 7 [] 4096, [.mk .TAINT_ENTITY_REG 16 0 [] 4096])],
        dependencies_to_save := [.mk .TAINT_ENTITY_REG 16 0 [] 4096],
        ite_cond_entity_list := [],
        modified_regs := [],
        has_memory_read := true,
        has_memory_write := false }
      { taint_sink_src_map :=
          [(.mk .TAINT_ENTITY_TMP 0 7 [] 4096, [.mk .TAINT_ENTITY_REG 16 0 [] 4096])],
        dependencies_to_save := [.mk .TAINT_ENTITY_REG 16 0 [] 4096],
        ite_cond_entity_list := [.mk .TAINT_ENTITY_TMP 0 9 [] 4096],
        modified_regs := [(16, true)],
        has_memory_read := true,
        has_memory_write := false } = true :=
  instr_taint_entry_eq_ignores_ite_and_modified _ _ rfl rfl rfl rfl

/-- C10: `instr_details_t::operator<` compares only `instr_addr`, so the
`std::set` equivalence (neither `a < b` nor `b < a`) is exactly equality of
instruction addresses, and any strictly sorted sequence — the contents of a
`std::set<instr_details_t>` such as
`instr_slice_details_t::dependent_instrs` — has pairwise distinct
instruction addresses: at most one entry per address. -/
theorem instr_details_lt_addr_only :
    (∀ a b : instr_details_t,
      (instr_details_lt a b = false ∧ instr_details_lt b a = false) ↔
        a.instr_addr = b.instr_addr) ∧
    (∀ l : List instr_details_t,
      List.Pairwise (fun x y => instr_details_lt x y = true) l →
        (l.map (fun d => d.instr_addr)).Nodup) := by
  constructor
  · intro a b
    simp only [instr_details_lt, decide_eq_false_iff_not, not_lt, decide_eq_true_eq]
    omega
  · intro l h
    show List.Pairwise (fun x y => x ≠ y) (l.map (fun d => d.instr_addr))
    rw [List.pairwise_map]
    refine h.imp ?_
    intro a b hab
    simp only [instr_details_lt, decide_eq_true_eq] at hab
    omega

/-- C8: `State::is_valid_dependency_register` holds exactly when the
register offset is in neither `artificial_vex_registers` nor
`blacklisted_registers`. -/
theorem valid_dependency_register_spec :
    ∀ (s : State) (reg_offset : Nat),
      is_valid_dependency_register s reg_offset = true ↔
        (reg_offset ∉ s.artificial_vex_registers ∧
          reg_offset ∉ s.blacklisted_registers) := by
  intro s r
  simp [is_valid_dependency_register, List.count_eq_zero]

/-- C5: shadow pages hold exactly 4096 taint bytes (`PAGE_SIZE = 0x1000`,
`PageBitmap` is `taint_t[PAGE_SIZE]`), and the page of a byte address is its
value shifted right by `PAGE_SHIFT = 12` bits, i.e. division by the page
size. -/
theorem page_constants_spec :
    PAGE_SIZE = 4096 ∧ PAGE_SHIFT = 12 ∧ 2 ^ PAGE_SHIFT = PAGE_SIZE ∧
    (∀ p : PageBitmap, p.1.length = 4096) ∧
    (∀ addr : Nat, page_of_addr addr = addr >>> 12 ∧ page_of_addr addr = addr / PAGE_SIZE) := by
  refine ⟨rfl, rfl, rfl, fun p => p.2, fun addr => ⟨rfl, ?_⟩⟩
  rw [page_of_addr, Nat.shiftRight_eq_div_pow]
  norm_num [PAGE_SIZE, PAGE_SHIFT]

/-- C6: the basic-block size limit is 800 guest-code bytes, and a block is
refused exactly when it is longer than that. -/
theorem max_bb_size_spec :
    MAX_BB_SIZE = 800 ∧
    ∀ block_size : Nat, block_size_refused block_size = true ↔ 800 < block_size := by
  refine ⟨rfl, fun n => ?_⟩
  simp [block_size_refused, MAX_BB_SIZE]

/-- C7: for every architecture outside {x86, ARM, ARM64, MIPS} both
program-counter lookups return the `(unsigned int) -1` sentinel, and for the
supported architectures they return the architecture's (and, for x86/MIPS,
the mode's) PC register constant.  The hypotheses say the external register
constants are below the sentinel, as every real VEX offset and unicorn
register id is. -/
theorem arch_pc_reg_spec (c : vex_pc_offsets) (u : uc_pc_regs) (s : State)
    (hc : c.OFFSET_amd64_RIP < NO_SUCH_REG ∧ c.OFFSET_x86_EIP < NO_SUCH_REG ∧
        c.OFFSET_arm_R15T < NO_SUCH_REG ∧ c.OFFSET_arm64_PC < NO_SUCH_REG ∧
        c.OFFSET_mips64_PC < NO_SUCH_REG ∧ c.OFFSET_mips32_PC < NO_SUCH_REG)
    (hu : u.UC_X86_REG_RIP < NO_SUCH_REG ∧ u.UC_X86_REG_EIP < NO_SUCH_REG ∧
        u.UC_ARM_REG_PC < NO_SUCH_REG ∧ u.UC_ARM64_REG_PC < NO_SUCH_REG ∧
        u.UC_MIPS_REG_PC < NO_SUCH_REG) :
    (arch_pc_reg_vex_offset c s = NO_SUCH_REG ↔
      (s.arch ≠ .UC_ARCH_X86 ∧ s.arch ≠ .UC_ARCH_ARM ∧
        s.arch ≠ .UC_ARCH_ARM64 ∧ s.arch ≠ .UC_ARCH_MIPS)) ∧
    (arch_pc_reg u s = NO_SUCH_REG ↔
      (s.arch ≠ .UC_ARCH_X86 ∧ s.arch ≠ .UC_ARCH_ARM ∧
        s.arch ≠ .UC_ARCH_ARM64 ∧ s.arch ≠ .UC_ARCH_MIPS)) ∧
    (s.arch = .UC_ARCH_X86 → s.mode = .UC_MODE_64 →
      arch_pc_reg_vex_offset c s = c.OFFSET_amd64_RIP ∧ arch_pc_reg u s = u.UC_X86_REG_RIP) ∧
    (s.arch = .UC_ARCH_X86 → s.mode ≠ .UC_MODE_64 →
      arch_pc_reg_vex_offset c s = c.OFFSET_x86_EIP ∧ arch_pc_reg u s = u.UC_X86_REG_EIP) ∧
    (s.arch = .UC_ARCH_ARM →
      arch_pc_reg_vex_offset c s = c.OFFSET_arm_R15T ∧ arch_pc_reg u s = u.UC_ARM_REG_PC) ∧
    (s.arch = .UC_ARCH_ARM64 →
      arch_pc_reg_vex_offset c s = c.OFFSET_arm64_PC ∧ arch_pc_reg u s = u.UC_ARM64_REG_PC) ∧
    (s.arch = .UC_ARCH_MIPS → s.mode = .UC_MODE_64 →
      arch_pc_reg_vex_offset c s = c.OFFSET_mips64_PC ∧ arch_pc_reg u s = u.UC_MIPS_REG_PC) ∧
    (s.arch = .UC_ARCH_MIPS → s.mode ≠ .UC_MODE_64 →
      arch_pc_reg_vex_offset c s = c.OFFSET_mips32_PC ∧ arch_pc_reg u s = u.UC_MIPS_REG_PC) := by
  obtain ⟨h1, h2, h3, h4, h5, h6⟩ := hc
  obtain ⟨g1, g2, g3, g4, g5⟩ := hu
  have hlt : NO_SUCH_REG < 2 ^ 32 := by norm_num [NO_SUCH_REG]
  have hmod : ∀ n : Nat, n < NO_SUCH_REG → n % 2 ^ 32 = n :=
    fun n hn => Nat.mod_eq_of_lt (by omega)
  have hNO : NO_SUCH_REG % 2 ^ 32 = NO_SUCH_REG := Nat.mod_eq_of_lt (by omega)
  obtain ⟨sh, mw, sr, br, ar, bsr, bcr, bst, arch, mode⟩ := s
  cases arch with
  | UC_ARCH_X86 =>
    by_cases hm : mode = .UC_MODE_64
    · subst hm
      simp only [arch_pc_reg_vex_offset, arch_pc_reg, reduceIte]
      rw [hmod _ h1, hmod _ g1]
      refine ⟨?_, ?_, ?_, ?_, ?_, ?_, ?_, ?_⟩ <;> simp <;> omega
    · simp only [arch_pc_reg_vex_offset, arch_pc_reg, if_neg hm]
      rw [hmod _ h2, hmod _ g2]
      refine ⟨?_, ?_, ?_, ?_, ?_, ?_, ?_, ?_⟩ <;> simp [hm] <;> omega
  | UC_ARCH_ARM =>
    simp only [arch_pc_reg_vex_offset, arch_pc_reg]
    rw [hmod _ h3, hmod _ g3]
    refine ⟨?_, ?_, ?_, ?_, ?_, ?_, ?_, ?_⟩ <;> simp <;> omega
  | UC_ARCH_ARM64 =>
    simp only [arch_pc_reg_vex_offset, arch_pc_reg]
    rw [hmod _ h4, hmod _ g4]
    refine ⟨?_, ?_, ?_, ?_, ?_, ?_, ?_, ?_⟩ <;> simp <;> omega
  | UC_ARCH_MIPS =>
    by_cases hm : mode = .UC_MODE_64
    · subst hm
      simp only [arch_pc_reg_vex_offset, arch_pc_reg, reduceIte]
      rw [hmod _ h5, hmod _ g5]
      refine ⟨?_, ?_, ?_, ?_, ?_, ?_, ?_, ?_⟩ <;> simp <;> omega
    · simp only [arch_pc_reg_vex_offset, arch_pc_reg, if_neg hm]
      rw [hmod _ h6, hmod _ g5]
      refine ⟨?_, ?_, ?_, ?_, ?_, ?_, ?_, ?_⟩ <;> simp [hm] <;> omega
  | UC_ARCH_PPC =>
    simp only [arch_pc_reg_vex_offset, arch_pc_reg]
    refine ⟨?_, ?_, ?_, ?_, ?_, ?_, ?_, ?_⟩ <;> simp <;> norm_num [NO_SUCH_REG]
  | UC_ARCH_SPARC =>
    simp only [arch_pc_reg_vex_offset, arch_pc_reg]
    refine ⟨?_, ?_, ?_, ?_, ?_, ?_, ?_, ?_⟩ <;> simp <;> norm_num [NO_SUCH_REG]
  | UC_ARCH_M68K =>
    simp only [arch_pc_reg_vex_offset, arch_pc_reg]
    refine ⟨?_, ?_, ?_, ?_, ?_, ?_, ?_, ?_⟩ <;> simp <;> norm_num [NO_SUCH_REG]

/-- C7 witness: with concrete register constants, an unsupported
architecture (PPC) yields the sentinel from both lookups, and ARM yields its
PC constants. -/
theorem arch_pc_reg_spec_witness :
    (arch_pc_reg_vex_offset ⟨184, 68, 68, 272, 272, 136⟩
        { shadow := fun _ => .TAINT_NONE, mem_writes := [], symbolic_registers := [],
          blacklisted_registers := [], artificial_vex_registers := [],
          block_symbolic_registers := [], block_concrete_registers := [],
          block_symbolic_temps := [], arch := .UC_ARCH_PPC, mode := .UC_MODE_32 } =
      NO_SUCH_REG ↔
      (uc_arch.UC_ARCH_PPC ≠ .UC_ARCH_X86 ∧ uc_arch.UC_ARCH_PPC ≠ .UC_ARCH_ARM ∧
        uc_arch.UC_ARCH_PPC ≠ .UC_ARCH_ARM64 ∧ uc_arch.UC_ARCH_PPC ≠ .UC_ARCH_MIPS)) :=
  (arch_pc_reg_spec ⟨184, 68, 68, 272, 272, 136⟩ ⟨35, 26, 11, 260, 1⟩
    { shadow := fun _ => .TAINT_NONE, mem_writes := [], symbolic_registers := [],
      blacklisted_registers := [], artificial_vex_registers := [],
      block_symbolic_registers := [], block_concrete_registers := [],
      block_symbolic_temps := [], arch := .UC_ARCH_PPC, mode := .UC_MODE_32 }
    (by refine ⟨?_, ?_, ?_, ?_, ?_, ?_⟩ <;> norm_num [NO_SUCH_REG])
    (by refine ⟨?_, ?_, ?_, ?_, ?_⟩ <;> norm_num [NO_SUCH_REG])).1

theorem restore_writes_congr :
    ∀ (l : List mem_access_t) (m n : Nat → taint_t),
      (∀ x, m x = n x) → ∀ x, restore_writes l m x = restore_writes l n x := by
  intro l
  induction l with
  | nil => intro m n h x; exact h x
  | cons e es ih =>
    intro m n h x
    rw [restore_writes, restore_writes]
    refine ih _ _ (fun y => ?_) x
    simp only [restore_entry]
    split
    · rfl
    · exact h y

/-- Undoing a journalled write restores the taint every byte had before it:
the entry's `clean` snapshot was taken from the pre-write shadow. -/
theorem restore_entry_log_write (addr size : Nat) (b : Bool) (m : Nat → taint_t) (x : Nat) :
    restore_entry
      { address := addr, value := [], size := size,
        clean := (List.range size).map (fun k => m (addr + k)), is_symbolic := b }
      (fun y => if addr ≤ y ∧ y < addr + size then taint_of_write b else m y) x = m x := by
  simp only [restore_entry]
  split
  · rename_i hx
    have hlt : x - addr < size := by omega
    rw [List.getD_eq_getElem?_getD, List.getElem?_map, List.getElem?_range hlt]
    simp only [Option.map_some', Option.getD_some]
    congr 1
    omega
  · rfl

/-- Rolling the journal back in reverse order undoes every effect the
block's events had on the shadow memory, byte for byte — including
overlapping writes, because each entry restores the snapshot taken just
before it. -/
theorem apply_ops_restore (ops : List block_op) :
    ∀ (s : State) (x : Nat),
      restore_writes (apply_ops ops s).mem_writes.reverse (apply_ops ops s).shadow x =
        restore_writes s.mem_writes.reverse s.shadow x := by
  induction ops with
  | nil => intro s x; rfl
  | cons op ops ih =>
    intro s x
    have hstep : apply_ops (op :: ops) s = apply_ops ops (apply_op op s) := rfl
    rw [hstep, ih (apply_op op s) x]
    cases op with
    | write a n b =>
      simp only [apply_op, log_write]
      rw [List.reverse_append, List.reverse_singleton, List.singleton_append, restore_writes]
      exact restore_writes_congr _ _ _ (fun y => restore_entry_log_write a n b s.shadow y) x
    | reg_symbolic r => rfl
    | reg_concrete r => rfl
    | temp_symbolic t => rfl

/-- None of the block-level events touches the persistent
`symbolic_registers` set: block marks go to the block-level sets and are
only folded in by `commit`. -/
theorem apply_ops_symbolic_registers (ops : List block_op) :
    ∀ s : State, (apply_ops ops s).symbolic_registers = s.symbolic_registers := by
  induction ops with
  | nil => intro s; rfl
  | cons op ops ih =>
    intro s
    have hstep : apply_ops (op :: ops) s = apply_ops ops (apply_op op s) := rfl
    rw [hstep, ih]
    cases op <;> rfl

/-- C4: from any block-entry state, after an arbitrary sequence of
journalled writes and block-level taint marks, `rollback()` restores the
shadow memory taint, the symbolic-register view and the symbolic-temp view
exactly to their block-entry values and drains the journal, and `commit()`
leaves the write journal `mem_writes` empty. -/
theorem commit_rollback_restores_block_entry (s0 : State) (ops : List block_op)
    (h : at_block_entry s0) :
    (∀ a : Nat, (rollback (apply_ops ops s0)).shadow a = s0.shadow a) ∧
    (∀ r : Nat, is_symbolic_register (rollback (apply_ops ops s0)) r =
      is_symbolic_register s0 r) ∧
    (∀ t : Nat, is_symbolic_temp (rollback (apply_ops ops s0)) t =
      is_symbolic_temp s0 t) ∧
    (rollback (apply_ops ops s0)).mem_writes = [] ∧
    (commit (apply_ops ops s0)).mem_writes = [] := by
  obtain ⟨hm, hbs, hbc, hbt⟩ := h
  refine ⟨?_, ?_, ?_, rfl, rfl⟩
  · intro a
    have hsh : (rollback (apply_ops ops s0)).shadow a =
        restore_writes (apply_ops ops s0).mem_writes.reverse (apply_ops ops s0).shadow a := rfl
    rw [hsh, apply_ops_restore ops s0 a, hm]
    rfl
  · intro r
    simp only [is_symbolic_register, rollback]
    rw [apply_ops_symbolic_registers, hbs, hbc]
  · intro t
    simp only [is_symbolic_temp, rollback]
    rw [hbt]

/-- C4 witness: a concrete block-entry state and a concrete event sequence
(a concrete write over 4096..4099, register marks, a temp mark); byte 4097
is back to its entry taint after rollback, and commit drains the journal. -/
theorem commit_rollback_restores_block_entry_witness :
    (rollback (apply_ops
        [.write 4096 4 false, .reg_symbolic 16, .temp_symbolic 3, .reg_concrete 16]
        { shadow := fun _ => .TAINT_NONE, mem_writes := [], symbolic_registers := [16],
          blacklisted_registers := [], artificial_vex_registers := [],
          block_symbolic_registers := [], block_concrete_registers := [],
          block_symbolic_temps := [], arch := .UC_ARCH_X86,
          mode := .UC_MODE_64 })).shadow 4097 = taint_t.TAINT_NONE ∧
    (commit (apply_ops
        [.write 4096 4 false, .reg_symbolic 16, .temp_symbolic 3, .reg_concrete 16]
        { shadow := fun _ => .TAINT_NONE, mem_writes := [], symbolic_registers := [16],
          blacklisted_registers := [], artificial_vex_registers := [],
          block_symbolic_registers := [], block_concrete_registers := [],
          block_symbolic_temps := [], arch := .UC_ARCH_X86,
          mode := .UC_MODE_64 })).mem_writes = [] :=
  ⟨(commit_rollback_restores_block_entry
      { shadow := fun _ => .TAINT_NONE, mem_writes := [], symbolic_registers := [16],
        blacklisted_registers := [], artificial_vex_registers := [],
        block_symbolic_registers := [], block_concrete_registers := [],
        block_symbolic_temps := [], arch := .UC_ARCH_X86, mode := .UC_MODE_64 }
      [.write 4096 4 false, .reg_symbolic 16, .temp_symbolic 3, .reg_concrete 16]
      ⟨rfl, rfl, rfl, rfl⟩).1 4097,
   (commit_rollback_restores_block_entry
      { shadow := fun _ => .TAINT_NONE, mem_writes := [], symbolic_registers := [16],
        blacklisted_registers := [], artificial_vex_registers := [],
        block_symbolic_registers := [], block_concrete_registers := [],
        block_symbolic_temps := [], arch := .UC_ARCH_X86, mode := .UC_MODE_64 }
      [.write 4096 4 false, .reg_symbolic 16, .temp_symbolic 3, .reg_concrete 16]
      ⟨rfl, rfl, rfl, rfl⟩).2.2.2.2⟩
